import Mathlib

/-!
Shallow embedding of the two grasping environments of this repository:
`src/envs/panda_grasp_env.py` (namespace `PandaGraspEnv`) and
`src/envs/panda_grasp_env_her.py` (namespace `PandaGraspEnvHer`).

The physics backend (pybullet) and the robot controller (`PandaEnv`, imported
from a module that is not part of the two source files) are external
collaborators: every world quantity they produce (end-effector position,
target-object pose, per-tick heights during the lift animation) enters the
model as an explicit input, and `apply_action` / `stepSimulation` calls have
no modelled effect beyond those inputs.  Positions and commands are rationals
(every Python float is a rational); distances are real numbers obtained by
`Real.sqrt` of a rational sum of squares, exactly mirroring
`np.linalg.norm`.  Branch conditions of the source that compare a distance
with a rational threshold are decided on the squared distance; the lemmas
`get_distance_le_iff` / `get_distance_lt_iff` prove this equal to the
source's comparison on the distance itself.
-/

/-- A 3-component vector of rationals (a pybullet position or an axis mask). -/
structure Vec3 where
  x : ℚ
  y : ℚ
  z : ℚ
deriving DecidableEq, Repr

/-- Componentwise product, as in `[axis[0]*p[0], axis[1]*p[1], axis[2]*p[2]]`. -/
def Vec3.maskMul (axis v : Vec3) : Vec3 :=
  ⟨axis.x * v.x, axis.y * v.y, axis.z * v.z⟩

/-- Squared Euclidean norm of the difference of the two masked points:
the quantity under the square root of `np.linalg.norm(point_a - point_b)`
in `get_distance` (identical in both source files). -/
def distSq (point_a point_b axis : Vec3) : ℚ :=
  let a := axis.maskMul point_a
  let b := axis.maskMul point_b
  (a.x - b.x) ^ 2 + (a.y - b.y) ^ 2 + (a.z - b.z) ^ 2

/-- `get_distance(point_a, point_b, axis)` from both source files:
the Euclidean norm of the componentwise-masked difference. -/
noncomputable def get_distance (point_a point_b axis : Vec3) : ℝ :=
  Real.sqrt (distSq point_a point_b axis)

/-- Errors the Python code can raise on the paths the claims talk about. -/
inductive PyError where
  | indexError
  | typeError
deriving DecidableEq, Repr

/-- Python list indexing `l[i]` for an integer `i`: a negative index counts
from the end; an index out of range raises `IndexError`. -/
def pyGet (l : List ℚ) (i : ℤ) : Except PyError ℚ :=
  let j : ℤ := if 0 ≤ i then i else i + l.length
  if h : 0 ≤ j ∧ j.toNat < l.length then .ok (l.get ⟨j.toNat, h.2⟩)
  else .error .indexError

namespace PandaGraspEnv

/-- `reward_type` constructor argument: `'sparse'` or `'dense'`. -/
inductive RewardType where
  | sparse
  | dense
deriving DecidableEq, Repr

/-- The dictionary built by `get_extended_observation`.  `gripper` stands for
the first three entries of the (external) `PandaEnv.get_observation()` vector,
which is all of `observation['observation']` that the source ever reads
(`get_gripper_pos` returns `observation["observation"][0:3]`). -/
structure Obs where
  gripper : Vec3
  achieved_goal : Vec3
  desired_goal : Vec3
deriving DecidableEq, Repr

/-- The mutable attributes of `PandaGraspGymEnv` (variant 1) that the episode
logic reads or writes.  Counters are naturals (Python ints on these paths are
never negative); `max_step_count` and the configuration flags are the
constructor arguments. -/
structure EnvState where
  attempted_grasp : Bool
  is_successful_grasp : Bool
  terminated : Bool
  env_step_counter : ℕ
  max_step_count : ℕ
  grasp_attempts_count : ℕ
  successful_grasp_count : ℕ
  episode_number : ℕ
  reward_type : RewardType
  is_continuous_downward_enabled : Bool
  goal_position : Vec3
  observation : Obs
deriving DecidableEq, Repr

/-- The state of the external world after a physics tick, as far as the
episode logic reads it: end-effector position (first three entries of the
robot observation) and the target object's base position. -/
structure World where
  gripper : Vec3
  target : Vec3
deriving DecidableEq, Repr

/-- External inputs consumed by one `real_step` call: the world after the
initial `stepSimulation` tick, and the world after the grasp animation
(read only when the animation runs). -/
structure StepInput where
  w1 : World
  w2 : World
deriving DecidableEq, Repr

/-- The tuple `(observation, reward, done, info)` returned by `real_step`;
`info` is the dictionary `{'is_success': ...}`. -/
structure StepResult where
  obs : Obs
  reward : ℝ
  done : Bool
  is_success : Bool

/-- `get_extended_observation`: observation dictionary assembled from the
world; `achieved_goal` is the target object position, `desired_goal` is
`self._goal_position`. -/
def get_extended_observation (w : World) (goal_position : Vec3) : Obs :=
  ⟨w.gripper, w.target, goal_position⟩

/-- `get_gripper_pos`: `self._observation["observation"][0:3]`. -/
def get_gripper_pos (s : EnvState) : Vec3 := s.observation.gripper

/-- `get_target_pos`: `self._observation["achieved_goal"]`. -/
def get_target_pos (s : EnvState) : Vec3 := s.observation.achieved_goal

/-- `get_horizontal_distance_to_target`: axis mask `[1, 1, 0]`. -/
noncomputable def get_horizontal_distance_to_target (s : EnvState) : ℝ :=
  get_distance (get_gripper_pos s) (get_target_pos s) ⟨1, 1, 0⟩

/-- `get_distance_to_target`: axis mask `[1, 1, 1]`. -/
noncomputable def get_distance_to_target (s : EnvState) : ℝ :=
  get_distance (get_gripper_pos s) (get_target_pos s) ⟨1, 1, 1⟩

/-- `get_vertical_distance_to_target`: axis mask `[0, 0, 1]`. -/
noncomputable def get_vertical_distance_to_target (s : EnvState) : ℝ :=
  get_distance (get_gripper_pos s) (get_target_pos s) ⟨0, 0, 1⟩

/-- Squared horizontal distance (decidable form of the dense-reward branch
condition `horizontal_distance <= 0.025`). -/
def horizontalDistSq (s : EnvState) : ℚ :=
  distSq (get_gripper_pos s) (get_target_pos s) ⟨1, 1, 0⟩

/-- Squared vertical distance (decidable form of the grasp-trigger condition
`distance <= self._distance_to_grasp`). -/
def verticalDistSq (s : EnvState) : ℚ :=
  distSq (get_gripper_pos s) (get_target_pos s) ⟨0, 0, 1⟩

/-- `_is_success(object_position, goal_position)`: true iff a grasp has been
attempted and `object_position[2] >= goal_position[2]`. -/
def _is_success (s : EnvState) (object_position goal_position : Vec3) : Bool :=
  s.attempted_grasp && decide (goal_position.z ≤ object_position.z)

/-- `compute_reward(achieved_goal, desired_goal, info)`.  Sparse mode returns
`np.float32` of `_is_success`; dense mode is the shaped reward of lines
272-282; branch conditions are decided on squared distances (see
`get_distance_le_iff`). -/
noncomputable def compute_reward (s : EnvState) (achieved_goal desired_goal : Vec3)
    (info_is_success : Bool) : ℝ :=
  match s.reward_type with
  | .sparse => if _is_success s achieved_goal desired_goal then 1 else 0
  | .dense =>
      let base : ℝ :=
        if horizontalDistSq s ≤ (25 / 1000 : ℚ) ^ 2 then
          -(get_distance_to_target s * 10)
        else
          -(get_horizontal_distance_to_target s) * 10 - 10
      if info_is_success then base + 10000 else base

/-- `perform_grasp`: runs `close_fingers` and `lift_gripper` (whose effect on
the world is external physics; the command traces they issue are modelled by
`close_fingers` and `lift_gripper` below) and sets `attempted_grasp = True`. -/
def perform_grasp (s : EnvState) : EnvState :=
  { s with attempted_grasp := true }

/-- The finger-closure commands issued by the `close_fingers` loop:
each iteration issues the current `finger_angle`, then decrements it by
`1/anim_length`, clamping at `0`. -/
def close_fingers_go (anim_length : ℕ) : ℕ → ℚ → List ℚ
  | 0, _ => []
  | k + 1, finger_angle =>
      finger_angle ::
        close_fingers_go anim_length k
          (if finger_angle - 1 / (anim_length : ℚ) < 0 then 0
           else finger_angle - 1 / (anim_length : ℚ))

/-- `close_fingers(anim_length)`: the list of finger-closure commands issued,
starting from `finger_angle = 1`. -/
def close_fingers (anim_length : ℕ) : List ℚ :=
  close_fingers_go anim_length anim_length 1

/-- The value of `finger_angle` after the `close_fingers` loop finishes. -/
def finger_angle_after (anim_length : ℕ) : ℕ → ℚ → ℚ
  | 0, finger_angle => finger_angle
  | k + 1, finger_angle =>
      finger_angle_after anim_length k
        (if finger_angle - 1 / (anim_length : ℚ) < 0 then 0
         else finger_angle - 1 / (anim_length : ℚ))

/-- The break test of one `lift_gripper` iteration, in source order: the block
height read after the tick exceeds `0.8`, or the end-effector height exceeds
`cutoff_ee` (2.5 in variant 1, 2 in the HER variant).  `oracle i` is the pair
(block height, end-effector height) the physics backend reports after tick
`i` of the lift. -/
def lift_stop (cutoff_ee : ℚ) (oracle : ℕ → ℚ × ℚ) (i : ℕ) : Bool :=
  if (8 / 10 : ℚ) < (oracle i).1 then true
  else if cutoff_ee < (oracle i).2 then true
  else false

/-- Number of simulation ticks the `lift_gripper` loop executes: each
iteration ticks once, then breaks when `lift_stop` holds; at most
`anim_length` iterations run. -/
def lift_gripper (cutoff_ee : ℚ) (oracle : ℕ → ℚ × ℚ) : ℕ → ℕ → ℕ
  | _, 0 => 0
  | i, fuel + 1 =>
      if lift_stop cutoff_ee oracle i then 1
      else 1 + lift_gripper cutoff_ee oracle (i + 1) fuel

/-- `real_step(action)` of variant 1, after the (external) `apply_action` and
`stepSimulation`: bumps the step counter, rebuilds the observation from the
post-tick world, triggers the grasp animation when the vertical distance is
at most `self._distance_to_grasp = 0.11`, computes `info`, reward and `done`,
and returns the `(observation, reward, done, info)` tuple next to the
mutated state. -/
noncomputable def real_step (s0 : EnvState) (inp : StepInput) : EnvState × StepResult :=
  let s1 : EnvState :=
    { s0 with
      env_step_counter := s0.env_step_counter + 1
      observation := get_extended_observation inp.w1 s0.goal_position }
  let triggered : Bool := decide (verticalDistSq s1 ≤ (11 / 100 : ℚ) ^ 2)
  let s2 : EnvState :=
    if triggered then
      let sA := { s1 with grasp_attempts_count := s1.grasp_attempts_count + 1 }
      let sB := perform_grasp sA
      { sB with observation := get_extended_observation inp.w2 sB.goal_position }
    else s1
  let info_is_success : Bool :=
    _is_success s2 s2.observation.achieved_goal s2.observation.desired_goal
  let s3 : EnvState :=
    if info_is_success then
      { s2 with
        is_successful_grasp := true
        successful_grasp_count := s2.successful_grasp_count + 1 }
    else s2
  let reward : ℝ :=
    compute_reward s3 s3.observation.achieved_goal s3.goal_position info_is_success
  let done : Bool :=
    s3.is_successful_grasp || decide (s3.max_step_count ≤ s3.env_step_counter)
      || s3.attempted_grasp
  let s4 : EnvState :=
    if done then { s3 with episode_number := s3.episode_number + 1 } else s3
  (s4, ⟨s3.observation, reward, done, info_is_success⟩)

/-- `_termination`: `self._is_successful_grasp or
self._env_step_counter >= self._max_step_count or self._attempted_grasp`. -/
def _termination (s : EnvState) : Bool :=
  s.is_successful_grasp || decide (s.max_step_count ≤ s.env_step_counter)
    || s.attempted_grasp

/-- `reset()`: clears the per-episode flags and the step counter, reloads the
world (external), places the target at `target_pos` (fixed or sampled), sets
the goal `lift_distance = 0.04` above it, and rebuilds the observation.
The cumulative counters (`grasp_attempts_count`, `successful_grasp_count`,
`episode_number`) are not touched. -/
def reset (s : EnvState) (target_pos : Vec3) (w : World) : EnvState :=
  let goal : Vec3 := ⟨target_pos.x, target_pos.y, target_pos.z + 4 / 100⟩
  { s with
    is_successful_grasp := false
    terminated := false
    attempted_grasp := false
    env_step_counter := 0
    goal_position := goal
    observation := get_extended_observation w goal }

/-- The discrete branch of `step(action)`: the three seven-entry lookup
tables for `dx`, `dy`, `dz` (with `dz` forced to `-delta_pos` when
`is_continuous_downward_enabled`), producing
`real_action = [dx, dy, dz, 0, 0, 0, f]` with `f = 1`.  Python list indexing
raises `IndexError` only outside `-len .. len-1`. -/
def step_discrete (s : EnvState) (action : ℤ) : Except PyError (List ℚ) := do
  let delta_pos : ℚ := 1 / 100
  let dx ← pyGet [0, -delta_pos, delta_pos, 0, 0, 0, 0] action
  let dy ← pyGet [0, 0, 0, -delta_pos, delta_pos, 0, 0] action
  let dz ←
    if s.is_continuous_downward_enabled then pure (-delta_pos)
    else pyGet [0, 0, 0, 0, 0, -delta_pos, delta_pos] action
  pure [dx, dy, dz, 0, 0, 0, 1]

/-- The successive environment states produced by repeated `real_step` calls,
paired with the returned tuples: one entry per `step` call of an episode. -/
noncomputable def run_steps (s : EnvState) : List StepInput → List (EnvState × StepResult)
  | [] => []
  | inp :: rest =>
      let t := real_step s inp
      t :: run_steps t.1 rest

end PandaGraspEnv

namespace PandaGraspEnvHer

/-- The value held in `self._observation` of the HER variant: after `reset`
and inside `real_step` it is the `OrderedDict` built by
`get_extended_observation` (keys `observation`, `achieved_goal`,
`desired_goal`); the constructor initialises it to the empty list. -/
inductive ObsVal where
  | arr (l : List ℚ)
  | dict (observation : List ℚ) (achieved_goal : ℚ) (desired_goal : ℚ)
deriving DecidableEq, Repr

/-- The mutable attributes of the HER `PandaGraspGymEnv` that the episode
logic reads or writes.  `target_object_height` is the fixed desired goal
height (`0.7` in the constructor). -/
structure EnvState where
  attempted_grasp : Bool
  successful_grasp : Bool
  terminated : Bool
  env_step_counter : ℕ
  max_step_count : ℕ
  action_repeat_amount : ℕ
  grasp_attempts_count : ℕ
  successful_grasp_count : ℕ
  episode_number : ℕ
  target_object_height : ℚ
  is_continuous_downward_enabled : Bool
  observation : ObsVal
deriving DecidableEq, Repr

/-- The external world as read by the HER episode logic: the robot
observation list from the external `PandaEnv`, and the target object's base
position and orientation from the physics backend. -/
structure World where
  panda_observation : List ℚ
  target_pos : Vec3
  target_orn : List ℚ
deriving DecidableEq, Repr

/-- External inputs of one HER `real_step` call: the world after the
action-repeat ticks, and the world after the grasp animation. -/
structure StepInput where
  w1 : World
  w2 : World
deriving DecidableEq, Repr

/-- The tuple a completed HER `real_step` would return. -/
structure StepResult where
  obs : ObsVal
  reward : ℝ
  done : Bool
  is_success : Bool

/-- Slicing `self._observation[i:j]`.  On a list this is the usual slice;
on the `OrderedDict` the slice object is used as a dictionary key, which
raises `TypeError` (slices are unhashable). -/
def obsSlice (v : ObsVal) (i j : ℕ) : Except PyError (List ℚ) :=
  match v with
  | .dict _ _ _ => .error .typeError
  | .arr l => .ok ((l.drop i).take (j - i))

/-- First three rationals of a slice result, as a `Vec3` (missing entries
read as `0`; on the paths proved about, slices have exactly three entries). -/
def vec3OfList (l : List ℚ) : Vec3 :=
  ⟨l.headD 0, (l.drop 1).headD 0, (l.drop 2).headD 0⟩

/-- `get_extended_observation`: the `OrderedDict` whose `observation` entry is
the robot observation extended with the target pose and the goal height,
whose `achieved_goal` is the target height, and whose `desired_goal` is
`self.target_object_height`. -/
def get_extended_observation (s : EnvState) (w : World) : ObsVal :=
  .dict
    (w.panda_observation ++ [w.target_pos.x, w.target_pos.y, w.target_pos.z]
      ++ w.target_orn ++ [s.target_object_height])
    w.target_pos.z s.target_object_height

/-- `get_gripper_pos`: `self._observation[0:3]`. -/
def get_gripper_pos (s : EnvState) : Except PyError (List ℚ) :=
  obsSlice s.observation 0 3

/-- `get_target_pos`: `self._observation[7:10]`. -/
def get_target_pos (s : EnvState) : Except PyError (List ℚ) :=
  obsSlice s.observation 7 10

/-- `get_distance_to_target`: queries the target then the gripper position
from `self._observation` and takes the full 3D distance. -/
noncomputable def get_distance_to_target (s : EnvState) : Except PyError ℝ := do
  let target_obj_pos ← get_target_pos s
  let gripper_pos ← get_gripper_pos s
  pure (get_distance (vec3OfList gripper_pos) (vec3OfList target_obj_pos) ⟨1, 1, 1⟩)

/-- `_termination`: `self._attempted_grasp or
self._env_step_counter >= self._max_step_count`. -/
def _termination (s : EnvState) : Bool :=
  s.attempted_grasp || decide (s.max_step_count ≤ s.env_step_counter)

/-- `perform_grasp` of the HER variant: same scripted animation (close the
fingers, lift with end-effector cutoff `2`), then `attempted_grasp = True`.
The command traces are `PandaGraspEnv.close_fingers` and
`PandaGraspEnv.lift_gripper` with `cutoff_ee = 2`. -/
def perform_grasp (s : EnvState) : EnvState :=
  { s with attempted_grasp := true }

/-- `_compute_reward()`: reads target and gripper positions from
`self._observation` (raising `TypeError` when it is the `OrderedDict`);
grants `1000000` and marks the episode successful when the target height
is strictly above `target_object_height`, otherwise shapes the reward by
horizontal distance (fine threshold `0.03`, weight `100`, flat penalty
`500`). -/
noncomputable def _compute_reward (s : EnvState) : Except PyError (EnvState × ℝ) := do
  let target_obj_pos ← get_target_pos s
  let gripper_pos ← get_gripper_pos s
  let tz : ℚ := (target_obj_pos.drop 2).headD 0
  if s.target_object_height < tz then
    pure
      ({ s with
          successful_grasp := true
          successful_grasp_count := s.successful_grasp_count + 1 },
        1000000)
  else
    let hSq : ℚ := distSq (vec3OfList gripper_pos) (vec3OfList target_obj_pos) ⟨1, 1, 0⟩
    let horizontal_distance : ℝ := get_distance (vec3OfList gripper_pos) (vec3OfList target_obj_pos) ⟨1, 1, 0⟩
    if hSq ≤ (3 / 100 : ℚ) ^ 2 then do
      let d ← get_distance_to_target s
      pure (s, -(d * 100))
    else
      pure (s, -horizontal_distance * 100 - 500)

/-- The `for i in range(self._action_repeat_amount)` loop of HER `real_step`:
each iteration ticks the simulation (external), breaks when `_termination()`
holds, and otherwise increments the step counter. -/
def repeat_loop (s : EnvState) : ℕ → EnvState
  | 0 => s
  | n + 1 =>
      if _termination s then s
      else repeat_loop { s with env_step_counter := s.env_step_counter + 1 } n

/-- `real_step(action)` of the HER variant: runs the action-repeat loop,
stores the `OrderedDict` observation, then computes the 3D distance to the
target — which slices the `OrderedDict` and therefore raises; on the
(unreachable) success of that call it would run the grasp trigger, the
reward and the termination logic shown. -/
noncomputable def real_step (s0 : EnvState) (inp : StepInput) :
    EnvState × Except PyError StepResult :=
  let s1 := repeat_loop s0 s0.action_repeat_amount
  let s2 := { s1 with observation := get_extended_observation s1 inp.w1 }
  match get_distance_to_target s2 with
  | .error e => (s2, .error e)
  | .ok distance =>
      let s3 :=
        if distance ≤ ((11 : ℝ) / 100) then
          let sA := { s2 with grasp_attempts_count := s2.grasp_attempts_count + 1 }
          let sB := perform_grasp sA
          { sB with observation := get_extended_observation sB inp.w2 }
        else s2
      match _compute_reward s3 with
      | .error e => (s3, .error e)
      | .ok (s4, reward) =>
          let done := _termination s4
          let s5 :=
            if done then { s4 with episode_number := s4.episode_number + 1 } else s4
          (s5, .ok ⟨s5.observation, reward, done, s5.successful_grasp⟩)

/-- `reset()` of the HER variant: clears the per-episode flags and the step
counter, reloads the world (external) and stores the fresh `OrderedDict`
observation; cumulative counters persist. -/
def reset (s : EnvState) (w : World) : EnvState :=
  let s' : EnvState :=
    { s with
      successful_grasp := false
      terminated := false
      attempted_grasp := false
      env_step_counter := 0 }
  { s' with observation := get_extended_observation s' w }

/-- The discrete branch of HER `step(action)`: lookup tables with eight
entries for `dx`, `dy`, `dz` and nine for `dyaw`, producing
`real_action = [dx, dy, dz, 0, 0, dyaw, f]` with `f = 1`. -/
def step_discrete (s : EnvState) (action : ℤ) : Except PyError (List ℚ) := do
  let delta_pos : ℚ := 1 / 100
  let delta_angle : ℚ := 1 / 100
  let dx ← pyGet [-delta_pos, delta_pos, 0, 0, 0, 0, 0, 0] action
  let dy ← pyGet [0, 0, -delta_pos, delta_pos, 0, 0, 0, 0] action
  let dz ←
    if s.is_continuous_downward_enabled then pure (-delta_pos)
    else pyGet [0, 0, 0, 0, -delta_pos, delta_pos, 0, 0] action
  let dyaw ← pyGet [0, 0, 0, 0, 0, 0, 0, -delta_angle, delta_angle] action
  pure [dx, dy, dz, 0, 0, dyaw, 1]

end PandaGraspEnvHer

/-! Concrete states and worlds used to instantiate the theorems below. -/

namespace PandaGraspEnv

/-- A freshly reset dense-reward environment state: goal `0.04` above a
target resting at height `0.46`, `max_step_count = 10`. -/
def exDenseState : EnvState where
  attempted_grasp := false
  is_successful_grasp := false
  terminated := false
  env_step_counter := 0
  max_step_count := 10
  grasp_attempts_count := 0
  successful_grasp_count := 0
  episode_number := 1
  reward_type := .dense
  is_continuous_downward_enabled := false
  goal_position := ⟨7 / 10, 1 / 4, 1 / 2⟩
  observation := ⟨⟨0, 0, 0⟩, ⟨7 / 10, 1 / 4, 46 / 100⟩, ⟨7 / 10, 1 / 4, 1 / 2⟩⟩

/-- The same state with sparse rewards. -/
def exSparseState : EnvState := { exDenseState with reward_type := .sparse }

/-- The same state with `max_step_count = 0`. -/
def exMaxZeroState : EnvState := { exDenseState with max_step_count := 0 }

/-- The same state with a grasp already attempted. -/
def exAttemptedState : EnvState := { exDenseState with attempted_grasp := true }

/-- A post-tick world with the end-effector far from the target: vertical
distance `1`, horizontal distance `1`. -/
def wFar : World := ⟨⟨0, 0, 0⟩, ⟨1, 0, 1⟩⟩

/-- A post-tick world with the end-effector on the target (distance `0`). -/
def wNear : World := ⟨⟨7 / 10, 1 / 4, 1 / 2⟩, ⟨7 / 10, 1 / 4, 1 / 2⟩⟩

/-- A post-animation world with the target lifted to height `0.6`, above the
goal height `0.5` of `exDenseState`. -/
def wLifted : World := ⟨⟨7 / 10, 1 / 4, 8 / 10⟩, ⟨7 / 10, 1 / 4, 6 / 10⟩⟩

/-- Step input that stays outside the grasp-trigger radius. -/
def inpFar : StepInput := ⟨wFar, wFar⟩

/-- Step input that triggers the grasp and lifts the target above the goal. -/
def inpNear : StepInput := ⟨wNear, wLifted⟩

end PandaGraspEnv

namespace PandaGraspEnvHer

/-- A freshly reset HER environment state, `max_step_count = 10`,
`action_repeat_amount = 1`. -/
def herExState : EnvState where
  attempted_grasp := false
  successful_grasp := false
  terminated := false
  env_step_counter := 0
  max_step_count := 10
  action_repeat_amount := 1
  grasp_attempts_count := 0
  successful_grasp_count := 0
  episode_number := 1
  target_object_height := 7 / 10
  is_continuous_downward_enabled := false
  observation := .arr []

/-- An HER world whose robot observation starts with the end-effector at the
origin and whose target object also rests at the origin: the 3D distance
between end-effector and target is `0`. -/
def herExWorld : World := ⟨[0, 0, 0, 0, 0, 0, 1], ⟨0, 0, 0⟩, [0, 0, 0, 1]⟩

/-- Step input built from `herExWorld`. -/
def herExInput : StepInput := ⟨herExWorld, herExWorld⟩

end PandaGraspEnvHer

/-! Bridging lemmas between the source's distance comparisons and their
squared decidable forms. -/

theorem distSq_nonneg (a b axis : Vec3) : 0 ≤ distSq a b axis := by
  unfold distSq
  positivity

theorem get_distance_nonneg (a b axis : Vec3) : 0 ≤ get_distance a b axis :=
  Real.sqrt_nonneg _

/-- `get_distance a b axis ≤ c` holds exactly when the squared distance is at
most `c ^ 2`, for a nonnegative rational threshold `c`. -/
theorem get_distance_le_iff (a b axis : Vec3) (c : ℚ) (hc : 0 ≤ c) :
    get_distance a b axis ≤ (c : ℝ) ↔ distSq a b axis ≤ c ^ 2 := by
  unfold get_distance
  rw [Real.sqrt_le_left (by exact_mod_cast hc)]
  exact_mod_cast Iff.rfl

/-- Strict counterpart of `get_distance_le_iff`. -/
theorem get_distance_lt_iff (a b axis : Vec3) (c : ℚ) (hc : 0 ≤ c) :
    (c : ℝ) < get_distance a b axis ↔ c ^ 2 < distSq a b axis := by
  unfold get_distance
  rw [Real.lt_sqrt (by exact_mod_cast hc)]
  exact_mod_cast Iff.rfl

/-- Evaluate a distance whose squared value is a perfect rational square. -/
theorem get_distance_eq (a b axis : Vec3) (c : ℚ) (hc : 0 ≤ c)
    (h : distSq a b axis = c ^ 2) : get_distance a b axis = (c : ℝ) := by
  unfold get_distance
  rw [h]
  push_cast
  exact Real.sqrt_sq (by exact_mod_cast hc)

/-! Component lemmas about `PandaGraspEnv.real_step`. -/

namespace PandaGraspEnv

theorem real_step_counter (s : EnvState) (inp : StepInput) :
    (real_step s inp).1.env_step_counter = s.env_step_counter + 1 := by
  simp only [real_step, perform_grasp]
  split_ifs <;> rfl

theorem real_step_max (s : EnvState) (inp : StepInput) :
    (real_step s inp).1.max_step_count = s.max_step_count := by
  simp only [real_step, perform_grasp]
  split_ifs <;> rfl

theorem real_step_attempted (s : EnvState) (inp : StepInput) :
    (real_step s inp).1.attempted_grasp =
      (s.attempted_grasp
        || decide (distSq inp.w1.gripper inp.w1.target ⟨0, 0, 1⟩ ≤ (11 / 100 : ℚ) ^ 2)) := by
  simp only [real_step, perform_grasp, verticalDistSq, get_gripper_pos, get_target_pos,
    get_extended_observation]
  split_ifs <;> simp_all

theorem real_step_grasp_count (s : EnvState) (inp : StepInput) :
    (real_step s inp).1.grasp_attempts_count =
      s.grasp_attempts_count
        + (if distSq inp.w1.gripper inp.w1.target ⟨0, 0, 1⟩ ≤ (11 / 100 : ℚ) ^ 2 then 1
           else 0) := by
  simp only [real_step, perform_grasp, verticalDistSq, get_gripper_pos, get_target_pos,
    get_extended_observation]
  split_ifs <;> simp_all

theorem real_step_obs (s : EnvState) (inp : StepInput) :
    (real_step s inp).2.obs = (real_step s inp).1.observation := by
  simp only [real_step, perform_grasp]
  split_ifs <;> rfl

end PandaGraspEnv

namespace PandaGraspEnv

theorem real_step_is_success (s : EnvState) (inp : StepInput) :
    (real_step s inp).2.is_success =
      ((real_step s inp).1.attempted_grasp
        && decide ((real_step s inp).2.obs.desired_goal.z
              ≤ (real_step s inp).2.obs.achieved_goal.z)) := by
  simp only [real_step, perform_grasp, _is_success]
  split_ifs <;> rfl

theorem real_step_done (s : EnvState) (inp : StepInput) :
    (real_step s inp).2.done =
      ((real_step s inp).1.is_successful_grasp
        || decide ((real_step s inp).1.max_step_count ≤ (real_step s inp).1.env_step_counter)
        || (real_step s inp).1.attempted_grasp) := by
  simp only [real_step, perform_grasp]
  split_ifs <;> rfl

theorem real_step_reward_type (s : EnvState) (inp : StepInput) :
    (real_step s inp).1.reward_type = s.reward_type := by
  simp only [real_step, perform_grasp]
  split_ifs <;> rfl

theorem real_step_reward (s : EnvState) (inp : StepInput) :
    (real_step s inp).2.reward =
      compute_reward (real_step s inp).1 (real_step s inp).2.obs.achieved_goal
        (real_step s inp).1.goal_position (real_step s inp).2.is_success := by
  simp only [real_step, perform_grasp]
  split_ifs <;> rfl

end PandaGraspEnv

/-! Helper lemmas about the HER variant. -/

namespace PandaGraspEnvHer

/-- The action-repeat loop only ever touches the step counter. -/
theorem repeat_loop_attempted (n : ℕ) (s : EnvState) :
    (repeat_loop s n).attempted_grasp = s.attempted_grasp := by
  induction n generalizing s with
  | zero => rfl
  | succ n ih =>
      simp only [repeat_loop]
      split
      · rfl
      · exact ih _

theorem repeat_loop_grasp_count (n : ℕ) (s : EnvState) :
    (repeat_loop s n).grasp_attempts_count = s.grasp_attempts_count := by
  induction n generalizing s with
  | zero => rfl
  | succ n ih =>
      simp only [repeat_loop]
      split
      · rfl
      · exact ih _

theorem repeat_loop_successful (n : ℕ) (s : EnvState) :
    (repeat_loop s n).successful_grasp = s.successful_grasp := by
  induction n generalizing s with
  | zero => rfl
  | succ n ih =>
      simp only [repeat_loop]
      split
      · rfl
      · exact ih _

/-- Every HER `real_step` call ends in the `TypeError` raised by slicing the
`OrderedDict` observation in `get_target_pos`, with the state as left by the
action-repeat loop and the stored observation. -/
theorem real_step_eq (s : EnvState) (inp : StepInput) :
    real_step s inp =
      ({ repeat_loop s s.action_repeat_amount with
          observation :=
            get_extended_observation (repeat_loop s s.action_repeat_amount) inp.w1 },
        .error .typeError) := rfl

theorem real_step_error (s : EnvState) (inp : StepInput) :
    (real_step s inp).2 = .error .typeError := rfl

theorem her_step_attempted (s : EnvState) (inp : StepInput) :
    (real_step s inp).1.attempted_grasp = s.attempted_grasp := by
  rw [real_step_eq]
  exact repeat_loop_attempted _ _

theorem her_step_grasp_count (s : EnvState) (inp : StepInput) :
    (real_step s inp).1.grasp_attempts_count = s.grasp_attempts_count := by
  rw [real_step_eq]
  exact repeat_loop_grasp_count _ _

theorem real_step_successful (s : EnvState) (inp : StepInput) :
    (real_step s inp).1.successful_grasp = s.successful_grasp := by
  rw [real_step_eq]
  exact repeat_loop_successful _ _

end PandaGraspEnvHer

/-! Episode-trace lemmas for variant 1. -/

namespace PandaGraspEnv

theorem run_steps_max (inps : List StepInput) (s : EnvState) :
    ∀ t ∈ run_steps s inps, t.1.max_step_count = s.max_step_count := by
  induction inps generalizing s with
  | nil =>
      intro t ht
      simp [run_steps] at ht
  | cons inp rest ih =>
      intro t ht
      simp only [run_steps, List.mem_cons] at ht
      rcases ht with h | h
      · rw [h]
        exact real_step_max s inp
      · exact (ih (real_step s inp).1 t h).trans (real_step_max s inp)

theorem run_steps_attempted (inps : List StepInput) (s : EnvState)
    (hs : s.attempted_grasp = true) :
    ∀ t ∈ run_steps s inps, t.1.attempted_grasp = true := by
  induction inps generalizing s with
  | nil =>
      intro t ht
      simp [run_steps] at ht
  | cons inp rest ih =>
      intro t ht
      have hstep : (real_step s inp).1.attempted_grasp = true := by
        rw [real_step_attempted, hs, Bool.true_or]
      simp only [run_steps, List.mem_cons] at ht
      rcases ht with h | h
      · rw [h]
        exact hstep
      · exact ih (real_step s inp).1 hstep t h

theorem real_step_done_false_counter (s : EnvState) (inp : StepInput)
    (h : (real_step s inp).2.done = false) :
    (real_step s inp).1.env_step_counter < (real_step s inp).1.max_step_count := by
  rw [real_step_done] at h
  simp only [Bool.or_eq_false_iff, decide_eq_false_iff_not] at h
  omega

theorem run_steps_first_done_counter (inps : List StepInput) (s : EnvState)
    (hs : s.env_step_counter < s.max_step_count) :
    ∀ i (hi : i < (run_steps s inps).length),
      (∀ j (hj : j < i), ((run_steps s inps).get ⟨j, hj.trans hi⟩).2.done = false) →
      ((run_steps s inps).get ⟨i, hi⟩).1.env_step_counter ≤ s.max_step_count := by
  induction inps generalizing s with
  | nil =>
      intro i hi
      simp [run_steps] at hi
  | cons inp rest ih =>
      intro i hi hprev
      match i with
      | 0 =>
          have hc := real_step_counter s inp
          simp only [run_steps, List.get_eq_getElem, List.getElem_cons_zero]
          omega
      | Nat.succ i =>
          have h0 : (real_step s inp).2.done = false := by
            have := hprev 0 (Nat.succ_pos i)
            simpa only [run_steps, List.get_eq_getElem, List.getElem_cons_zero] using this
          have hlt := real_step_done_false_counter s inp h0
          have hi' : i < (run_steps (real_step s inp).1 rest).length := by
            simpa only [run_steps, List.length_cons, Nat.succ_lt_succ_iff] using hi
          have hprev' : ∀ j (hj : j < i),
              ((run_steps (real_step s inp).1 rest).get ⟨j, hj.trans hi'⟩).2.done = false := by
            intro j hj
            have := hprev (j + 1) (Nat.succ_lt_succ hj)
            simpa only [run_steps, List.get_eq_getElem, List.getElem_cons_succ] using this
          have := ih (real_step s inp).1 hlt i hi' hprev'
          rw [real_step_max s inp] at this
          simpa only [run_steps, List.get_eq_getElem, List.getElem_cons_succ] using this

end PandaGraspEnv

/-! Lemmas about the scripted grasp animation loops. -/

namespace PandaGraspEnv

theorem lift_gripper_le (c : ℚ) (o : ℕ → ℚ × ℚ) (fuel : ℕ) :
    ∀ i, lift_gripper c o i fuel ≤ fuel := by
  induction fuel with
  | zero => intro i; simp [lift_gripper]
  | succ fuel ih =>
      intro i
      simp only [lift_gripper]
      split
      · omega
      · have := ih (i + 1)
        omega

theorem lift_gripper_pos (c : ℚ) (o : ℕ → ℚ × ℚ) (fuel : ℕ) (hf : 0 < fuel) :
    ∀ i, 0 < lift_gripper c o i fuel := by
  match fuel, hf with
  | fuel + 1, _ =>
      intro i
      simp only [lift_gripper]
      split <;> omega

theorem lift_gripper_no_stop (c : ℚ) (o : ℕ → ℚ × ℚ) (fuel : ℕ) :
    ∀ i, (∀ j, j < fuel → lift_stop c o (i + j) = false) →
      lift_gripper c o i fuel = fuel := by
  induction fuel with
  | zero => intro i _; rfl
  | succ fuel ih =>
      intro i h
      have h0 : lift_stop c o i = false := by simpa using h 0 (Nat.succ_pos fuel)
      have hrec := ih (i + 1) (fun j hj => by
        have hh := h (j + 1) (Nat.succ_lt_succ hj)
        have harith : i + 1 + j = i + (j + 1) := by omega
        rw [harith]
        exact hh)
      have hstep : lift_gripper c o i (fuel + 1) = 1 + lift_gripper c o (i + 1) fuel := by
        simp [lift_gripper, h0]
      rw [hstep, hrec]
      omega

theorem lift_gripper_stop_at (c : ℚ) (o : ℕ → ℚ × ℚ) (fuel : ℕ) :
    ∀ i, lift_gripper c o i fuel < fuel →
      lift_stop c o (i + (lift_gripper c o i fuel - 1)) = true := by
  induction fuel with
  | zero => intro i h; omega
  | succ fuel ih =>
      intro i h
      cases h0 : lift_stop c o i with
      | true => simp [lift_gripper, h0]
      | false =>
          have hstep : lift_gripper c o i (fuel + 1) = 1 + lift_gripper c o (i + 1) fuel := by
            simp [lift_gripper, h0]
          rw [hstep] at h ⊢
          have hlt : lift_gripper c o (i + 1) fuel < fuel := by omega
          have hpos : 0 < lift_gripper c o (i + 1) fuel := by
            rcases Nat.eq_zero_or_pos fuel with hf | hf
            · omega
            · exact lift_gripper_pos c o fuel hf (i + 1)
          have hr := ih (i + 1) hlt
          have harith : i + (1 + lift_gripper c o (i + 1) fuel - 1)
              = i + 1 + (lift_gripper c o (i + 1) fuel - 1) := by omega
          rw [harith]
          exact hr

theorem lift_gripper_not_stop_before (c : ℚ) (o : ℕ → ℚ × ℚ) (fuel : ℕ) :
    ∀ i j, j + 1 < lift_gripper c o i fuel → lift_stop c o (i + j) = false := by
  induction fuel with
  | zero => intro i j h; simp [lift_gripper] at h
  | succ fuel ih =>
      intro i j h
      cases h0 : lift_stop c o i with
      | true =>
          have hstep : lift_gripper c o i (fuel + 1) = 1 := by simp [lift_gripper, h0]
          rw [hstep] at h
          omega
      | false =>
          have hstep : lift_gripper c o i (fuel + 1) = 1 + lift_gripper c o (i + 1) fuel := by
            simp [lift_gripper, h0]
          rw [hstep] at h
          match j with
          | 0 => simpa using h0
          | Nat.succ j =>
              have hh := ih (i + 1) j (by omega)
              have harith : i + 1 + j = i + (j + 1) := by omega
              rw [harith] at hh
              exact hh

end PandaGraspEnv

/-! Python list-indexing lemmas for the discrete action tables. -/

theorem pyGet_eq_error_iff (l : List ℚ) (i : ℤ) :
    pyGet l i = .error .indexError ↔ (i < -(l.length : ℤ) ∨ (l.length : ℤ) ≤ i) := by
  simp only [pyGet]
  split_ifs <;> simp <;> omega

theorem pyGet_ok_of_mem_range (l : List ℚ) (i : ℤ) (h1 : -(l.length : ℤ) ≤ i)
    (h2 : i < (l.length : ℤ)) : ∃ q, pyGet l i = .ok q := by
  simp only [pyGet]
  split_ifs
  · exact ⟨_, rfl⟩
  · exfalso; omega
  · exact ⟨_, rfl⟩
  · exfalso; omega

/-- Variant-1 discrete action lookup: `IndexError` exactly outside the Python
index range `-7 .. 6` of the seven-entry tables; every index inside that
range (including the negative ones) is mapped to a command. -/
theorem step_discrete_classify_v1 (s : PandaGraspEnv.EnvState) (a : ℤ) :
    (PandaGraspEnv.step_discrete s a = .error .indexError ↔ (a < -7 ∨ 6 < a)) ∧
    ((∃ cmd, PandaGraspEnv.step_discrete s a = .ok cmd) ↔ (-7 ≤ a ∧ a ≤ 6)) := by
  by_cases hin : (-7 : ℤ) ≤ a ∧ a ≤ 6
  · obtain ⟨q1, h1⟩ := pyGet_ok_of_mem_range [0, -(1/100), 1/100, 0, 0, 0, 0] a
      (by simp; omega) (by simp; omega)
    obtain ⟨q2, h2⟩ := pyGet_ok_of_mem_range [0, 0, 0, -(1/100), 1/100, 0, 0] a
      (by simp; omega) (by simp; omega)
    obtain ⟨q3, h3⟩ := pyGet_ok_of_mem_range [0, 0, 0, 0, 0, -(1/100), 1/100] a
      (by simp; omega) (by simp; omega)
    cases hc : s.is_continuous_downward_enabled <;>
      exact ⟨by simp [PandaGraspEnv.step_discrete, h1, h2, h3, hc, Except.bind, bind, pure,
          Except.pure, -one_div]; omega,
        by simp [PandaGraspEnv.step_discrete, h1, h2, h3, hc, Except.bind, bind, pure,
          Except.pure, -one_div]; omega⟩
  · have h1 : pyGet [0, -(1/100), 1/100, 0, 0, 0, 0] a = .error .indexError :=
      (pyGet_eq_error_iff _ _).2 (by simp; omega)
    exact ⟨by simp [PandaGraspEnv.step_discrete, h1, Except.bind, bind, -one_div]; omega,
      by simp [PandaGraspEnv.step_discrete, h1, Except.bind, bind, -one_div]; omega⟩

/-- HER discrete action lookup: `IndexError` exactly outside the Python index
range `-8 .. 7` of the eight-entry `dx` table; every index inside that range
(including `6`, `7` and the negative ones, none of which are in the declared
`Discrete(6)` space) is mapped to a command. -/
theorem step_discrete_classify_her (s : PandaGraspEnvHer.EnvState) (a : ℤ) :
    (PandaGraspEnvHer.step_discrete s a = .error .indexError ↔ (a < -8 ∨ 7 < a)) ∧
    ((∃ cmd, PandaGraspEnvHer.step_discrete s a = .ok cmd) ↔ (-8 ≤ a ∧ a ≤ 7)) := by
  by_cases hin : (-8 : ℤ) ≤ a ∧ a ≤ 7
  · obtain ⟨q1, h1⟩ := pyGet_ok_of_mem_range [-(1/100), 1/100, 0, 0, 0, 0, 0, 0] a
      (by simp; omega) (by simp; omega)
    obtain ⟨q2, h2⟩ := pyGet_ok_of_mem_range [0, 0, -(1/100), 1/100, 0, 0, 0, 0] a
      (by simp; omega) (by simp; omega)
    obtain ⟨q3, h3⟩ := pyGet_ok_of_mem_range [0, 0, 0, 0, -(1/100), 1/100, 0, 0] a
      (by simp; omega) (by simp; omega)
    obtain ⟨q4, h4⟩ := pyGet_ok_of_mem_range [0, 0, 0, 0, 0, 0, 0, -(1/100), 1/100] a
      (by simp; omega) (by simp; omega)
    cases hc : s.is_continuous_downward_enabled <;>
      exact ⟨by simp [PandaGraspEnvHer.step_discrete, h1, h2, h3, h4, hc, Except.bind, bind, pure,
          Except.pure, -one_div]; omega,
        by simp [PandaGraspEnvHer.step_discrete, h1, h2, h3, h4, hc, Except.bind, bind, pure,
          Except.pure, -one_div]; omega⟩
  · have h1 : pyGet [-(1/100), 1/100, 0, 0, 0, 0, 0, 0] a = .error .indexError :=
      (pyGet_eq_error_iff _ _).2 (by simp; omega)
    exact ⟨by simp [PandaGraspEnvHer.step_discrete, h1, Except.bind, bind, -one_div]; omega,
      by simp [PandaGraspEnvHer.step_discrete, h1, Except.bind, bind, -one_div]; omega⟩

/-! The finger-closure ramp. -/

namespace PandaGraspEnv

theorem close_fingers_go_ramp (n : ℕ) (hn : 0 < n) :
    ∀ (k m : ℕ), k + m = n →
      close_fingers_go n k (1 - (m : ℚ) / n)
        = (List.range k).map (fun i => 1 - ((m + i : ℕ) : ℚ) / n) := by
  intro k
  induction k with
  | zero =>
      intro m h
      simp [close_fingers_go]
  | succ k ih =>
      intro m h
      have hnq : (0 : ℚ) < n := by exact_mod_cast hn
      have hstep : (1 : ℚ) - (m : ℚ) / n - 1 / n = 1 - ((m + 1 : ℕ) : ℚ) / n := by
        push_cast
        ring
      have hnonneg : ¬ ((1 : ℚ) - (m : ℚ) / n - 1 / n < 0) := by
        rw [hstep, not_lt, sub_nonneg, div_le_one hnq]
        exact_mod_cast (by omega : m + 1 ≤ n)
      simp only [close_fingers_go]
      rw [if_neg hnonneg, hstep, ih (m + 1) (by omega),
        List.range_succ_eq_map, List.map_cons, List.map_map]
      refine List.cons_eq_cons.mpr ⟨by simp, ?_⟩
      apply List.map_congr_left
      intro i _
      simp only [Function.comp_apply]
      push_cast
      ring

theorem finger_angle_after_ramp (n : ℕ) (hn : 0 < n) :
    ∀ (k m : ℕ), k + m = n → finger_angle_after n k (1 - (m : ℚ) / n) = 0 := by
  intro k
  induction k with
  | zero =>
      intro m h
      have hm : m = n := by omega
      subst hm
      have hnq : ((m : ℚ)) ≠ 0 := Nat.cast_ne_zero.mpr (by omega)
      simp [finger_angle_after, div_self hnq]
  | succ k ih =>
      intro m h
      have hnq : (0 : ℚ) < n := by exact_mod_cast hn
      have hstep : (1 : ℚ) - (m : ℚ) / n - 1 / n = 1 - ((m + 1 : ℕ) : ℚ) / n := by
        push_cast
        ring
      have hnonneg : ¬ ((1 : ℚ) - (m : ℚ) / n - 1 / n < 0) := by
        rw [hstep, not_lt, sub_nonneg, div_le_one hnq]
        exact_mod_cast (by omega : m + 1 ≤ n)
      simp only [finger_angle_after]
      rw [if_neg hnonneg, hstep]
      exact ih (m + 1) (by omega)

theorem close_fingers_ramp_100 :
    close_fingers 100 = (List.range 100).map (fun i : ℕ => 1 - (i : ℚ) / 100) := by
  have h := close_fingers_go_ramp 100 (by norm_num) 100 0 (by norm_num)
  rw [show (1 : ℚ) - ((0 : ℕ) : ℚ) / ((100 : ℕ) : ℚ) = 1 by norm_num] at h
  rw [close_fingers, h]
  apply List.map_congr_left
  intro i _
  norm_num

theorem finger_angle_after_100 : finger_angle_after 100 100 1 = 0 := by
  have h := finger_angle_after_ramp 100 (by norm_num) 100 0 (by norm_num)
  rw [show (1 : ℚ) - ((0 : ℕ) : ℚ) / ((100 : ℕ) : ℚ) = 1 by norm_num] at h
  exact h

end PandaGraspEnv

/-! Remaining helper lemmas. -/

namespace PandaGraspEnv

theorem real_step_obs_desired (s : EnvState) (inp : StepInput) :
    (real_step s inp).2.obs.desired_goal = (real_step s inp).1.goal_position := by
  simp only [real_step, perform_grasp]
  split_ifs <;> rfl

theorem real_step_observation (s : EnvState) (inp : StepInput) :
    (real_step s inp).1.observation =
      (if distSq inp.w1.gripper inp.w1.target ⟨0, 0, 1⟩ ≤ (11 / 100 : ℚ) ^ 2 then
        get_extended_observation inp.w2 s.goal_position
       else get_extended_observation inp.w1 s.goal_position) := by
  simp only [real_step, perform_grasp, verticalDistSq, get_gripper_pos, get_target_pos,
    get_extended_observation]
  split_ifs <;> simp_all

theorem run_steps_done_false (inps : List StepInput) (s : EnvState) :
    ∀ t ∈ run_steps s inps, t.2.done = false →
      t.1.env_step_counter < s.max_step_count := by
  induction inps generalizing s with
  | nil =>
      intro t ht
      simp [run_steps] at ht
  | cons inp rest ih =>
      intro t ht hdone
      simp only [run_steps, List.mem_cons] at ht
      rcases ht with h | h
      · rw [h] at hdone ⊢
        have := real_step_done_false_counter s inp hdone
        rw [real_step_max s inp] at this
        exact this
      · have := ih (real_step s inp).1 t h hdone
        rw [real_step_max s inp] at this
        exact this

theorem lift_stop_eq (c : ℚ) (o : ℕ → ℚ × ℚ) (i : ℕ) :
    lift_stop c o i = (decide ((8 / 10 : ℚ) < (o i).1) || decide (c < (o i).2)) := by
  unfold lift_stop
  split_ifs <;> simp_all

end PandaGraspEnv

/-! Claim theorems. -/

/-- C1: for every completed `step` of either variant, the reported success
flag is true exactly when `attempted_grasp` is true and the achieved target
height is at least the desired target height.  In variant 1 this is the
biconditional below; in the HER variant every `real_step` raises `TypeError`,
so no success flag is ever reported and the claim holds vacuously there. -/
theorem claim_C1 :
    (∀ (s : PandaGraspEnv.EnvState) (inp : PandaGraspEnv.StepInput),
        (PandaGraspEnv.real_step s inp).2.is_success = true ↔
          ((PandaGraspEnv.real_step s inp).1.attempted_grasp = true ∧
            (PandaGraspEnv.real_step s inp).2.obs.desired_goal.z
              ≤ (PandaGraspEnv.real_step s inp).2.obs.achieved_goal.z)) ∧
    (∀ (s : PandaGraspEnvHer.EnvState) (inp : PandaGraspEnvHer.StepInput),
        (PandaGraspEnvHer.real_step s inp).2 = .error .typeError) := by
  constructor
  · intro s inp
    rw [PandaGraspEnv.real_step_is_success]
    simp
  · intro s inp
    exact PandaGraspEnvHer.real_step_error s inp

/-- C4: the done flag returned by a variant-1 step is true exactly when a
grasp has been attempted, or the step counter has reached `max_step_count`,
or the episode has been marked successful; the HER termination predicate has
no success disjunct (and its `step` never returns, so no done flag is ever
reported there). -/
theorem claim_C4 :
    (∀ (s : PandaGraspEnv.EnvState) (inp : PandaGraspEnv.StepInput),
        ((PandaGraspEnv.real_step s inp).2.done = true ↔
          ((PandaGraspEnv.real_step s inp).1.attempted_grasp = true ∨
            (PandaGraspEnv.real_step s inp).1.max_step_count
              ≤ (PandaGraspEnv.real_step s inp).1.env_step_counter ∨
            (PandaGraspEnv.real_step s inp).1.is_successful_grasp = true))) ∧
    (∀ s : PandaGraspEnvHer.EnvState,
        (PandaGraspEnvHer._termination s = true ↔
          (s.attempted_grasp = true ∨ s.max_step_count ≤ s.env_step_counter))) ∧
    (∀ (s : PandaGraspEnvHer.EnvState) (inp : PandaGraspEnvHer.StepInput),
        (PandaGraspEnvHer.real_step s inp).2 = .error .typeError) := by
  refine ⟨?_, ?_, fun s inp => PandaGraspEnvHer.real_step_error s inp⟩
  · intro s inp
    rw [PandaGraspEnv.real_step_done]
    simp
    tauto
  · intro s
    unfold PandaGraspEnvHer._termination
    simp

/-- C5: `attempted_grasp` is monotone within an episode in both variants:
a variant-1 step preserves it once true (also along any run of steps),
`perform_grasp` only sets it, an HER step never changes it, and only `reset`
puts it back to `false`. -/
theorem claim_C5 :
    (∀ (s : PandaGraspEnv.EnvState) (inp : PandaGraspEnv.StepInput),
        s.attempted_grasp = true → (PandaGraspEnv.real_step s inp).1.attempted_grasp = true) ∧
    (∀ (s : PandaGraspEnv.EnvState) (inps : List PandaGraspEnv.StepInput),
        s.attempted_grasp = true →
        ∀ t ∈ PandaGraspEnv.run_steps s inps, t.1.attempted_grasp = true) ∧
    (∀ s : PandaGraspEnv.EnvState, (PandaGraspEnv.perform_grasp s).attempted_grasp = true) ∧
    (∀ (s : PandaGraspEnv.EnvState) (target_pos : Vec3) (w : PandaGraspEnv.World),
        (PandaGraspEnv.reset s target_pos w).attempted_grasp = false) ∧
    (∀ (s : PandaGraspEnvHer.EnvState) (inp : PandaGraspEnvHer.StepInput),
        (PandaGraspEnvHer.real_step s inp).1.attempted_grasp = s.attempted_grasp) ∧
    (∀ s : PandaGraspEnvHer.EnvState,
        (PandaGraspEnvHer.perform_grasp s).attempted_grasp = true) ∧
    (∀ (s : PandaGraspEnvHer.EnvState) (w : PandaGraspEnvHer.World),
        (PandaGraspEnvHer.reset s w).attempted_grasp = false) := by
  refine ⟨?_, ?_, fun s => rfl, fun s target_pos w => rfl,
    fun s inp => PandaGraspEnvHer.her_step_attempted s inp, fun s => rfl, fun s w => rfl⟩
  · intro s inp h
    rw [PandaGraspEnv.real_step_attempted, h, Bool.true_or]
  · intro s inps h
    exact PandaGraspEnv.run_steps_attempted inps s h

/-- C5 witness: a variant-1 state with `attempted_grasp = true` keeps the
flag after a concrete step. -/
theorem claim_C5_witness :
    (PandaGraspEnv.real_step PandaGraspEnv.exAttemptedState PandaGraspEnv.inpFar).1.attempted_grasp
      = true :=
  claim_C5.1 PandaGraspEnv.exAttemptedState PandaGraspEnv.inpFar rfl

/-- C10: every HER `real_step` raises `TypeError` before any reward or done
flag is produced: the stored observation is the `OrderedDict`, whose integer
slicing in `get_target_pos` / `get_gripper_pos` fails, so the grasp-trigger
check, the grasp animation and the reward computation are unreachable —
the grasp counter and flags are left untouched. -/
theorem claim_C10 :
    (∀ (s : PandaGraspEnvHer.EnvState) (inp : PandaGraspEnvHer.StepInput),
        (PandaGraspEnvHer.real_step s inp).2 = .error .typeError ∧
        (PandaGraspEnvHer.real_step s inp).1.grasp_attempts_count = s.grasp_attempts_count ∧
        (PandaGraspEnvHer.real_step s inp).1.attempted_grasp = s.attempted_grasp ∧
        (PandaGraspEnvHer.real_step s inp).1.successful_grasp = s.successful_grasp) ∧
    (∀ (observation : List ℚ) (achieved_goal desired_goal : ℚ) (i j : ℕ),
        PandaGraspEnvHer.obsSlice (.dict observation achieved_goal desired_goal) i j
          = .error .typeError) :=
  ⟨fun s inp => ⟨PandaGraspEnvHer.real_step_error s inp,
      PandaGraspEnvHer.her_step_grasp_count s inp,
      PandaGraspEnvHer.her_step_attempted s inp,
      PandaGraspEnvHer.real_step_successful s inp⟩,
    fun _ _ _ _ _ => rfl⟩

/-- C2 counterexample: an HER state and world where the full 3D distance
between the end-effector (first three robot-observation entries) and the
target is `0 ≤ 0.11`, yet the step raises `TypeError` before the distance
check: `grasp_attempts_count` is not incremented and no grasp animation
runs, contradicting the claim for the HER variant. -/
theorem claim_C2_counterexample :
    get_distance (PandaGraspEnvHer.vec3OfList PandaGraspEnvHer.herExWorld.panda_observation)
        PandaGraspEnvHer.herExWorld.target_pos ⟨1, 1, 1⟩ ≤ 11 / 100 ∧
    (PandaGraspEnvHer.real_step PandaGraspEnvHer.herExState
        PandaGraspEnvHer.herExInput).1.grasp_attempts_count
      = PandaGraspEnvHer.herExState.grasp_attempts_count ∧
    (PandaGraspEnvHer.real_step PandaGraspEnvHer.herExState
        PandaGraspEnvHer.herExInput).1.attempted_grasp = false ∧
    (PandaGraspEnvHer.real_step PandaGraspEnvHer.herExState PandaGraspEnvHer.herExInput).2
      = .error .typeError := by
  refine ⟨?_, PandaGraspEnvHer.her_step_grasp_count _ _, ?_, rfl⟩
  · rw [get_distance_eq _ _ _ 0 le_rfl
      (by norm_num [distSq, Vec3.maskMul, PandaGraspEnvHer.vec3OfList,
        PandaGraspEnvHer.herExWorld])]
    norm_num
  · rw [PandaGraspEnvHer.her_step_attempted]
    rfl

/-- C2 amended: in variant 1 the grasp branch runs exactly when the vertical
end-effector-target distance after the tick is at most `0.11` — the counter
is then incremented by exactly one and the scripted animation completes
within the step (leaving `attempted_grasp = true`); above the radius nothing
changes.  In the HER variant the distance check is unreachable — every step
raises `TypeError` first — so `grasp_attempts_count` is never incremented and
the animation never runs, whatever the distance. -/
theorem claim_C2_amended :
    (∀ (s : PandaGraspEnv.EnvState) (inp : PandaGraspEnv.StepInput),
        (get_distance inp.w1.gripper inp.w1.target ⟨0, 0, 1⟩ ≤ 11 / 100 →
          (PandaGraspEnv.real_step s inp).1.grasp_attempts_count
              = s.grasp_attempts_count + 1 ∧
            (PandaGraspEnv.real_step s inp).1.attempted_grasp = true) ∧
        (11 / 100 < get_distance inp.w1.gripper inp.w1.target ⟨0, 0, 1⟩ →
          (PandaGraspEnv.real_step s inp).1.grasp_attempts_count
              = s.grasp_attempts_count ∧
            (PandaGraspEnv.real_step s inp).1.attempted_grasp = s.attempted_grasp)) ∧
    (∀ (s : PandaGraspEnvHer.EnvState) (inp : PandaGraspEnvHer.StepInput),
        (PandaGraspEnvHer.real_step s inp).1.grasp_attempts_count
            = s.grasp_attempts_count ∧
          (PandaGraspEnvHer.real_step s inp).1.attempted_grasp = s.attempted_grasp ∧
          (PandaGraspEnvHer.real_step s inp).2 = .error .typeError) := by
  constructor
  · intro s inp
    have hcast : ((11 / 100 : ℚ) : ℝ) = 11 / 100 := by norm_num
    have hiff := get_distance_le_iff inp.w1.gripper inp.w1.target ⟨0, 0, 1⟩ (11 / 100)
      (by norm_num)
    rw [hcast] at hiff
    constructor
    · intro h
      have hd := hiff.1 h
      rw [PandaGraspEnv.real_step_grasp_count, PandaGraspEnv.real_step_attempted,
        if_pos hd]
      simp [hd]
    · intro h
      have hd : ¬ distSq inp.w1.gripper inp.w1.target ⟨0, 0, 1⟩ ≤ (11 / 100 : ℚ) ^ 2 :=
        fun hc => absurd (hiff.2 hc) (not_le.mpr h)
      rw [PandaGraspEnv.real_step_grasp_count, PandaGraspEnv.real_step_attempted,
        if_neg hd]
      simp [hd]
  · intro s inp
    exact ⟨PandaGraspEnvHer.her_step_grasp_count s inp,
      PandaGraspEnvHer.her_step_attempted s inp, rfl⟩

/-- C2 witness: a concrete variant-1 step inside the trigger radius
increments the counter by one and runs the animation. -/
theorem claim_C2_witness :
    get_distance PandaGraspEnv.inpNear.w1.gripper PandaGraspEnv.inpNear.w1.target ⟨0, 0, 1⟩
        ≤ 11 / 100 ∧
    (PandaGraspEnv.real_step PandaGraspEnv.exDenseState
        PandaGraspEnv.inpNear).1.grasp_attempts_count
      = PandaGraspEnv.exDenseState.grasp_attempts_count + 1 ∧
    (PandaGraspEnv.real_step PandaGraspEnv.exDenseState PandaGraspEnv.inpNear).1.attempted_grasp
      = true := by
  have hdist : get_distance PandaGraspEnv.inpNear.w1.gripper PandaGraspEnv.inpNear.w1.target
      ⟨0, 0, 1⟩ ≤ 11 / 100 := by
    rw [get_distance_eq _ _ _ 0 le_rfl
      (by norm_num [distSq, Vec3.maskMul, PandaGraspEnv.inpNear, PandaGraspEnv.wNear])]
    norm_num
  have h := (claim_C2_amended.1 PandaGraspEnv.exDenseState PandaGraspEnv.inpNear).1 hdist
  exact ⟨hdist, h.1, h.2⟩

namespace PandaGraspEnv

theorem compute_reward_dense (s : EnvState) (h : s.reward_type = .dense)
    (achieved_goal desired_goal : Vec3) (info_is_success : Bool) :
    compute_reward s achieved_goal desired_goal info_is_success =
      (if horizontalDistSq s ≤ (25 / 1000 : ℚ) ^ 2 then -(get_distance_to_target s * 10)
       else -(get_horizontal_distance_to_target s) * 10 - 10)
      + (if info_is_success then (10000 : ℝ) else 0) := by
  unfold compute_reward
  rw [h]
  cases info_is_success <;> simp

theorem compute_reward_sparse (s : EnvState) (h : s.reward_type = .sparse)
    (achieved_goal desired_goal : Vec3) (info_is_success : Bool) :
    compute_reward s achieved_goal desired_goal info_is_success =
      (if _is_success s achieved_goal desired_goal then (1 : ℝ) else 0) := by
  unfold compute_reward
  rw [h]

end PandaGraspEnv

/-- C3: in dense mode, a variant-1 step's reward is the negative weighted
horizontal distance minus the flat penalty while the horizontal distance is
strictly above the fine threshold `0.025`, switches to the negative weighted
full 3D distance (no flat penalty) at or below it, and gains the fixed
success bonus on top.  (Every HER step raises before producing a reward, so
the HER half of the claim is vacuous; see the C10 theorem.) -/
theorem claim_C3 (s : PandaGraspEnv.EnvState) (inp : PandaGraspEnv.StepInput)
    (hrt : s.reward_type = PandaGraspEnv.RewardType.dense) :
    (PandaGraspEnv.get_horizontal_distance_to_target (PandaGraspEnv.real_step s inp).1
        ≤ 25 / 1000 →
      (PandaGraspEnv.real_step s inp).2.reward =
        -(PandaGraspEnv.get_distance_to_target (PandaGraspEnv.real_step s inp).1 * 10)
          + (if (PandaGraspEnv.real_step s inp).2.is_success then (10000 : ℝ) else 0)) ∧
    (25 / 1000 < PandaGraspEnv.get_horizontal_distance_to_target (PandaGraspEnv.real_step s inp).1 →
      (PandaGraspEnv.real_step s inp).2.reward =
        -(PandaGraspEnv.get_horizontal_distance_to_target (PandaGraspEnv.real_step s inp).1) * 10
          - 10
          + (if (PandaGraspEnv.real_step s inp).2.is_success then (10000 : ℝ) else 0)) ∧
    (∀ (sh : PandaGraspEnvHer.EnvState) (inph : PandaGraspEnvHer.StepInput),
      (PandaGraspEnvHer.real_step sh inph).2 = .error .typeError) := by
  have hR := PandaGraspEnv.real_step_reward s inp
  rw [PandaGraspEnv.compute_reward_dense (PandaGraspEnv.real_step s inp).1
    (by rw [PandaGraspEnv.real_step_reward_type]; exact hrt) _ _ _] at hR
  have hcast : ((25 / 1000 : ℚ) : ℝ) = 25 / 1000 := by norm_num
  have hiff := get_distance_le_iff (PandaGraspEnv.get_gripper_pos (PandaGraspEnv.real_step s inp).1)
    (PandaGraspEnv.get_target_pos (PandaGraspEnv.real_step s inp).1) ⟨1, 1, 0⟩ (25 / 1000)
    (by norm_num)
  rw [hcast] at hiff
  constructor
  · intro h
    have hd : PandaGraspEnv.horizontalDistSq (PandaGraspEnv.real_step s inp).1
        ≤ (25 / 1000 : ℚ) ^ 2 := hiff.1 h
    rw [hR, if_pos hd]
  · refine ⟨?_, fun sh inph => PandaGraspEnvHer.real_step_error sh inph⟩
    intro h
    have hd : ¬ PandaGraspEnv.horizontalDistSq (PandaGraspEnv.real_step s inp).1
        ≤ (25 / 1000 : ℚ) ^ 2 := fun hc => absurd (hiff.2 hc) (not_le.mpr h)
    rw [hR, if_neg hd]

/-- C3 witness: a concrete dense step outside the fine threshold receives the
penalised horizontal-distance reward. -/
theorem claim_C3_witness :
    PandaGraspEnv.exDenseState.reward_type = PandaGraspEnv.RewardType.dense ∧
    25 / 1000 < PandaGraspEnv.get_horizontal_distance_to_target
        (PandaGraspEnv.real_step PandaGraspEnv.exDenseState PandaGraspEnv.inpFar).1 ∧
    (PandaGraspEnv.real_step PandaGraspEnv.exDenseState PandaGraspEnv.inpFar).2.reward =
      -(PandaGraspEnv.get_horizontal_distance_to_target
            (PandaGraspEnv.real_step PandaGraspEnv.exDenseState PandaGraspEnv.inpFar).1) * 10
        - 10
        + (if (PandaGraspEnv.real_step PandaGraspEnv.exDenseState
              PandaGraspEnv.inpFar).2.is_success then (10000 : ℝ) else 0) := by
  have hobs : (PandaGraspEnv.real_step PandaGraspEnv.exDenseState PandaGraspEnv.inpFar).1.observation
      = PandaGraspEnv.get_extended_observation PandaGraspEnv.wFar
          PandaGraspEnv.exDenseState.goal_position := by
    rw [PandaGraspEnv.real_step_observation]
    rw [if_neg (by norm_num [distSq, Vec3.maskMul, PandaGraspEnv.inpFar, PandaGraspEnv.wFar])]
    rfl
  have hH : PandaGraspEnv.get_horizontal_distance_to_target
      (PandaGraspEnv.real_step PandaGraspEnv.exDenseState PandaGraspEnv.inpFar).1 = 1 := by
    unfold PandaGraspEnv.get_horizontal_distance_to_target PandaGraspEnv.get_gripper_pos
      PandaGraspEnv.get_target_pos
    rw [hobs]
    show get_distance PandaGraspEnv.wFar.gripper PandaGraspEnv.wFar.target ⟨1, 1, 0⟩ = 1
    exact_mod_cast get_distance_eq PandaGraspEnv.wFar.gripper PandaGraspEnv.wFar.target
      ⟨1, 1, 0⟩ 1 (by norm_num) (by norm_num [distSq, Vec3.maskMul, PandaGraspEnv.wFar])
  have hgt : 25 / 1000 < PandaGraspEnv.get_horizontal_distance_to_target
      (PandaGraspEnv.real_step PandaGraspEnv.exDenseState PandaGraspEnv.inpFar).1 := by
    rw [hH]
    norm_num
  exact ⟨rfl, hgt, (claim_C3 PandaGraspEnv.exDenseState PandaGraspEnv.inpFar rfl).2.1 hgt⟩

/-- C8: with sparse rewards, every variant-1 step returns exactly `1.0` when
the step is successful and exactly `0.0` otherwise — never an intermediate
value. -/
theorem claim_C8 (s : PandaGraspEnv.EnvState) (inp : PandaGraspEnv.StepInput)
    (hrt : s.reward_type = PandaGraspEnv.RewardType.sparse) :
    (PandaGraspEnv.real_step s inp).2.reward =
      (if (PandaGraspEnv.real_step s inp).2.is_success then (1 : ℝ) else 0) := by
  rw [PandaGraspEnv.real_step_reward, PandaGraspEnv.compute_reward_sparse
    (PandaGraspEnv.real_step s inp).1
    (by rw [PandaGraspEnv.real_step_reward_type]; exact hrt) _ _ _]
  have h2 := PandaGraspEnv.real_step_obs_desired s inp
  have h1 := PandaGraspEnv.real_step_is_success s inp
  unfold PandaGraspEnv._is_success
  rw [← h2, ← h1]

/-- C8 witness: a concrete sparse step (no grasp attempted) returns the 0/1
form of the success flag. -/
theorem claim_C8_witness :
    PandaGraspEnv.exSparseState.reward_type = PandaGraspEnv.RewardType.sparse ∧
    (PandaGraspEnv.real_step PandaGraspEnv.exSparseState PandaGraspEnv.inpFar).2.reward =
      (if (PandaGraspEnv.real_step PandaGraspEnv.exSparseState
            PandaGraspEnv.inpFar).2.is_success then (1 : ℝ) else 0) :=
  ⟨rfl, claim_C8 PandaGraspEnv.exSparseState PandaGraspEnv.inpFar rfl⟩

/-- C6 counterexample: with `max_step_count = 0` the very first step of an
episode (counter freshly reset to `0`) returns `done = true` with the step
counter already at `1 > max_step_count`, so the claim's bound on the counter
at the first terminal return fails as stated. -/
theorem claim_C6_counterexample :
    PandaGraspEnv.exMaxZeroState.env_step_counter = 0 ∧
    PandaGraspEnv.exMaxZeroState.max_step_count = 0 ∧
    (PandaGraspEnv.run_steps PandaGraspEnv.exMaxZeroState [PandaGraspEnv.inpFar]).map
        (fun t => (t.2.done, t.1.env_step_counter)) = [(true, 1)] := by
  refine ⟨rfl, rfl, ?_⟩
  have h1 : PandaGraspEnv.run_steps PandaGraspEnv.exMaxZeroState [PandaGraspEnv.inpFar]
      = [PandaGraspEnv.real_step PandaGraspEnv.exMaxZeroState PandaGraspEnv.inpFar] := rfl
  have hcnt : (PandaGraspEnv.real_step PandaGraspEnv.exMaxZeroState
      PandaGraspEnv.inpFar).1.env_step_counter = 1 := by
    rw [PandaGraspEnv.real_step_counter]
    rfl
  have hd : (PandaGraspEnv.real_step PandaGraspEnv.exMaxZeroState
      PandaGraspEnv.inpFar).2.done = true := by
    rw [PandaGraspEnv.real_step_done]
    have hle : (PandaGraspEnv.real_step PandaGraspEnv.exMaxZeroState
        PandaGraspEnv.inpFar).1.max_step_count
        ≤ (PandaGraspEnv.real_step PandaGraspEnv.exMaxZeroState
            PandaGraspEnv.inpFar).1.env_step_counter := by
      rw [PandaGraspEnv.real_step_max, hcnt]
      exact Nat.zero_le 1
    simp [hle]
  rw [h1, List.map_cons, List.map_nil, hd, hcnt]

/-- C6 amended: in variant 1, every non-terminal return has its step counter
strictly below `max_step_count`, and — provided `max_step_count ≥ 1` — the
counter is at most `max_step_count` at the first terminal return of an
episode started with a zero counter (for `max_step_count = 0` the first step
already returns `done = true` with counter `1`).  The HER variant's step
never returns, so the claim is vacuous there. -/
theorem claim_C6_amended :
    (∀ (s : PandaGraspEnv.EnvState) (inps : List PandaGraspEnv.StepInput),
        ∀ t ∈ PandaGraspEnv.run_steps s inps, t.2.done = false →
          t.1.env_step_counter < s.max_step_count) ∧
    (∀ (s : PandaGraspEnv.EnvState) (inps : List PandaGraspEnv.StepInput),
        s.env_step_counter = 0 → 1 ≤ s.max_step_count →
        ∀ i (hi : i < (PandaGraspEnv.run_steps s inps).length),
          (∀ j (hj : j < i),
            ((PandaGraspEnv.run_steps s inps).get ⟨j, hj.trans hi⟩).2.done = false) →
          ((PandaGraspEnv.run_steps s inps).get ⟨i, hi⟩).1.env_step_counter
            ≤ s.max_step_count) ∧
    (∀ (s : PandaGraspEnvHer.EnvState) (inp : PandaGraspEnvHer.StepInput),
        (PandaGraspEnvHer.real_step s inp).2 = .error .typeError) := by
  refine ⟨?_, ?_, fun s inp => PandaGraspEnvHer.real_step_error s inp⟩
  · intro s inps
    exact PandaGraspEnv.run_steps_done_false inps s
  · intro s inps h0 h1
    exact PandaGraspEnv.run_steps_first_done_counter inps s (by omega)

/-- C6 witness: a concrete first step of an episode with `max_step_count = 10`
has its counter within the bound. -/
theorem claim_C6_witness :
    ((PandaGraspEnv.run_steps PandaGraspEnv.exDenseState [PandaGraspEnv.inpFar]).get
        ⟨0, by norm_num [PandaGraspEnv.run_steps]⟩).1.env_step_counter
      ≤ PandaGraspEnv.exDenseState.max_step_count :=
  claim_C6_amended.2.1 PandaGraspEnv.exDenseState [PandaGraspEnv.inpFar] rfl
    (by norm_num [PandaGraspEnv.exDenseState]) 0
    (by norm_num [PandaGraspEnv.run_steps])
    (fun j hj => absurd hj (Nat.not_lt_zero j))

/-- C7: the grasp animation always completes within the step: the
finger-closure commands of `close_fingers(100)` ramp linearly from `1`
down by `1/100` per tick (the internal parameter ending at `0`), the lift
loop runs at most `100` ticks and exits early exactly when the post-tick
block height exceeds `0.8` or the end-effector height exceeds the variant's
cutoff, and `perform_grasp` finishes by setting `attempted_grasp = true` in
both variants. -/
theorem claim_C7 :
    (∀ s : PandaGraspEnv.EnvState, (PandaGraspEnv.perform_grasp s).attempted_grasp = true) ∧
    (∀ s : PandaGraspEnvHer.EnvState, (PandaGraspEnvHer.perform_grasp s).attempted_grasp = true) ∧
    PandaGraspEnv.close_fingers 100
      = (List.range 100).map (fun i : ℕ => 1 - (i : ℚ) / 100) ∧
    PandaGraspEnv.finger_angle_after 100 100 1 = 0 ∧
    (∀ (c : ℚ) (o : ℕ → ℚ × ℚ) (i : ℕ),
        PandaGraspEnv.lift_stop c o i
          = (decide ((8 / 10 : ℚ) < (o i).1) || decide (c < (o i).2))) ∧
    (∀ (c : ℚ) (o : ℕ → ℚ × ℚ), PandaGraspEnv.lift_gripper c o 0 100 ≤ 100) ∧
    (∀ (c : ℚ) (o : ℕ → ℚ × ℚ),
        (∀ j, j < 100 → PandaGraspEnv.lift_stop c o j = false) →
        PandaGraspEnv.lift_gripper c o 0 100 = 100) ∧
    (∀ (c : ℚ) (o : ℕ → ℚ × ℚ),
        PandaGraspEnv.lift_gripper c o 0 100 < 100 →
        PandaGraspEnv.lift_stop c o (PandaGraspEnv.lift_gripper c o 0 100 - 1) = true) ∧
    (∀ (c : ℚ) (o : ℕ → ℚ × ℚ) (j : ℕ),
        j + 1 < PandaGraspEnv.lift_gripper c o 0 100 →
        PandaGraspEnv.lift_stop c o j = false) := by
  refine ⟨fun s => rfl, fun s => rfl, PandaGraspEnv.close_fingers_ramp_100,
    PandaGraspEnv.finger_angle_after_100, PandaGraspEnv.lift_stop_eq,
    fun c o => PandaGraspEnv.lift_gripper_le c o 100 0, ?_, ?_, ?_⟩
  · intro c o h
    exact PandaGraspEnv.lift_gripper_no_stop c o 100 0 (fun j hj => by simpa using h j hj)
  · intro c o h
    have := PandaGraspEnv.lift_gripper_stop_at c o 100 0 h
    simpa using this
  · intro c o j h
    have := PandaGraspEnv.lift_gripper_not_stop_before c o 100 0 j h
    simpa using this

/-- C7 witness: with an oracle that never reaches either cutoff the lift loop
runs for the full 100 ticks. -/
theorem claim_C7_witness :
    PandaGraspEnv.lift_gripper (5 / 2) (fun _ => ((0 : ℚ), (0 : ℚ))) 0 100 = 100 :=
  claim_C7.2.2.2.2.2.2.1 (5 / 2) (fun _ => ((0 : ℚ), (0 : ℚ)))
    (fun j _ => by norm_num [PandaGraspEnv.lift_stop])

/-- C9 counterexample: variant-1 `step` with the out-of-space index `-1`
does not fail — Python's negative indexing maps it to the same command as
action `6` — and the HER variant's out-of-space index `6` is also mapped to
a command by its oversized lookup tables. -/
theorem claim_C9_counterexample :
    PandaGraspEnv.step_discrete PandaGraspEnv.exDenseState (-1)
        = .ok [0, 0, 1 / 100, 0, 0, 0, 1] ∧
    PandaGraspEnv.step_discrete PandaGraspEnv.exDenseState 6
        = .ok [0, 0, 1 / 100, 0, 0, 0, 1] ∧
    PandaGraspEnvHer.step_discrete PandaGraspEnvHer.herExState 6
        = .ok [0, 0, 0, 0, 0, 0, 1] :=
  ⟨rfl, rfl, rfl⟩

/-- C9 amended: the discrete action lookup raises `IndexError` exactly for
indices outside the Python index range of the tables (`-7 .. 6` in variant 1,
`-8 .. 7` in the HER variant); every other index — including the negative
ones, and `6`, `7` in the HER variant, none of which are in the declared
discrete spaces — is silently mapped to a command. -/
theorem claim_C9_amended :
    (∀ (s : PandaGraspEnv.EnvState) (a : ℤ),
        (PandaGraspEnv.step_discrete s a = .error .indexError ↔ (a < -7 ∨ 6 < a)) ∧
        ((∃ cmd, PandaGraspEnv.step_discrete s a = .ok cmd) ↔ (-7 ≤ a ∧ a ≤ 6))) ∧
    (∀ (s : PandaGraspEnvHer.EnvState) (a : ℤ),
        (PandaGraspEnvHer.step_discrete s a = .error .indexError ↔ (a < -8 ∨ 7 < a)) ∧
        ((∃ cmd, PandaGraspEnvHer.step_discrete s a = .ok cmd) ↔ (-8 ≤ a ∧ a ≤ 7))) :=
  ⟨step_discrete_classify_v1, step_discrete_classify_her⟩

/-- C9 witness: index `7` of variant 1 does raise `IndexError`. -/
theorem claim_C9_witness :
    PandaGraspEnv.step_discrete PandaGraspEnv.exDenseState 7 = .error .indexError :=
  ((claim_C9_amended.1 PandaGraspEnv.exDenseState 7).1).mpr (by norm_num)
